import Mathlib

/-!
Shallow embedding of the routine-execution core of the alarm_app repository
(alarm_app/routine_steps.py, alarm_app/routine.py, alarm_app/scheduler.py,
alarm_app/models.py), together with theorems settling the frozen claims.

Conventions of the embedding:
* Python dict lookups that may miss are `Option`; Python string falsiness
  (`None` or the empty string) is made explicit.
* The file system probe `os.path.exists` is an explicit parameter
  `fs : String → Bool`.
* A step's `execute()` performs external side effects, so its outcome is an
  explicit environment `behave : Nat → StepBehavior` giving, for each step
  index, whether the call returns a boolean or raises.
* The threading.Event cancellation flag is abstracted by
  `stopAfter : Option Nat`: `some k` means the flag reads set at every check
  from the k-th loop head on (the flag is set once and never cleared during a
  run), `none` means it is never set during the run.
* Observable actions of a run (step invocations, the pacing sleep) are
  recorded in a trace of `Event`s.
-/

namespace AlarmApp

/-- Step configuration dict (the `config` value of a steps_config entry):
only the keys the validators read. `none` models an absent key. -/
structure StepParams where
  audio_file : Option String := none
  rss_url : Option String := none
  url : Option String := none
  latitude : Option String := none
  longitude : Option String := none
deriving DecidableEq, Repr

/-- Python falsiness of an optional string value: absent or empty. -/
def falsy : Option String → Bool
  | none => true
  | some s => s = ""

/-- The five concrete RoutineStep classes of routine_steps.py. -/
inductive StepClass where
  | alarm
  | news
  | weatherUtil
  | urlOpener
  | quoteFetcher
deriving DecidableEq, Repr

/-- Python `__class__.__name__` of a step class. -/
def StepClass.className : StepClass → String
  | .alarm => "Alarm"
  | .news => "News"
  | .weatherUtil => "WeatherUtil"
  | .urlOpener => "URLOpener"
  | .quoteFetcher => "QuoteFetcher"

/-- A built RoutineStep instance: its class and its configuration. -/
structure BuiltStep where
  cls : StepClass
  config : StepParams
deriving DecidableEq, Repr

/-- Per-class `validate_config` (routine_steps.py). `fs` models
`os.path.exists`. Returns (is_valid, error_message) as in the source. -/
def validate_config (fs : String → Bool) (s : BuiltStep) : Bool × Option String :=
  match s.cls with
  | .alarm =>
    if falsy s.config.audio_file then (false, some "audio_file is required")
    else
      let f := s.config.audio_file.getD ""
      if fs f then (true, none)
      else (false, some ("Audio file not found: " ++ f))
  | .news =>
    if falsy s.config.rss_url then (false, some "rss_url is required")
    else (true, none)
  | .weatherUtil =>
    if falsy s.config.latitude ∨ falsy s.config.longitude then
      (false, some "latitude and longitude are required")
    else (true, none)
  | .urlOpener =>
    if falsy s.config.url then (false, some "url is required")
    else (true, none)
  | .quoteFetcher => (true, none)

/-- ROUTINE_STEP_REGISTRY of routine_steps.py. -/
def ROUTINE_STEP_REGISTRY : List (String × StepClass) :=
  [("alarm", StepClass.alarm),
   ("news", StepClass.news),
   ("weather", StepClass.weatherUtil),
   ("url_opener", StepClass.urlOpener),
   ("quote", StepClass.quoteFetcher)]

/-- Factory `create_routine_step`: registry lookup, `none` for an unknown
(or absent) type tag. -/
def create_routine_step (stepType : Option String) (params : StepParams) :
    Option BuiltStep :=
  match stepType with
  | none => none
  | some t => (ROUTINE_STEP_REGISTRY.lookup t).map (fun c => ⟨c, params⟩)

/-- One entry of a routine's steps_config list: the `type` tag (absent models
`step_config.get("type") = None`) and the `config` dict. -/
structure StepConfig where
  tag : Option String := none
  config : StepParams := {}
deriving DecidableEq, Repr

/-- Routine executor (class Routine of routine.py): name and raw step
configuration list. -/
structure Routine where
  name : String
  steps_config : List StepConfig
deriving DecidableEq, Repr

/-- Routine._build_steps: build instances from configuration, dropping (with a
warning print) every entry whose type tag is not in the registry. -/
def Routine.steps (r : Routine) : List BuiltStep :=
  r.steps_config.filterMap (fun c => create_routine_step c.tag c.config)

/-- Python `str(...)` of the optional type tag, as printed in the warning. -/
def pyOptStr : Option String → String
  | none => "None"
  | some s => s

/-- The warning lines printed by Routine._build_steps for unknown step types. -/
def buildWarnings (r : Routine) : List String :=
  r.steps_config.filterMap (fun c =>
    if (create_routine_step c.tag c.config).isNone then
      some ("Warning: Unknown step type '" ++ pyOptStr c.tag ++ "' in routine '"
        ++ r.name ++ "'")
    else none)

/-- Error for an empty routine name, as appended by Routine.validate. -/
def nameErrors (r : Routine) : List String :=
  if r.name = "" then ["Routine name is required"] else []

/-- Error for an empty steps_config list, as appended by Routine.validate. -/
def emptyErrors (r : Routine) : List String :=
  if r.steps_config = [] then ["Routine must have at least one step"] else []

/-- Per-step errors of Routine.validate: the enumerate loop over the built
steps, collecting a formatted message for each failing `validate_config`.
The first argument after `fs` is the current 0-based index. -/
def stepErrors (fs : String → Bool) : Nat → List BuiltStep → List String
  | _, [] => []
  | i, s :: rest =>
    let v := validate_config fs s
    if v.1 then stepErrors fs (i + 1) rest
    else ("Step " ++ toString (i + 1) ++ " (" ++ s.cls.className ++ "): "
      ++ v.2.getD "None") :: stepErrors fs (i + 1) rest

/-- Routine.validate: name error, empty-routine error, then the per-step
errors in order; valid iff the error list is empty. -/
def Routine.validate (fs : String → Bool) (r : Routine) : Bool × List String :=
  let errors := nameErrors r ++ emptyErrors r ++ stepErrors fs 0 r.steps
  (errors.length == 0, errors)

/-- Outcome of one step's `execute()` call: a boolean return or an exception. -/
inductive StepBehavior where
  | ok (success : Bool)
  | exc
deriving DecidableEq, Repr

/-- Observable events of a run: invocation of step i's `execute()`, and the
pacing `time.sleep` (in milliseconds). -/
inductive Event where
  | exec (i : Nat)
  | sleep (ms : Nat)
deriving DecidableEq, Repr

/-- Result of the execution loop of Routine._execute: the event trace, the
printed stop report `stopped at step a/n` as `some (a, n)`, and whether an
exception escaped the loop (to be caught by the `except` clause). -/
structure LoopResult where
  trace : List Event
  stoppedReport : Option (Nat × Nat)
  raised : Bool
deriving DecidableEq, Repr

/-- Whether the cancellation flag reads set at the loop head after `i` steps
have completed. -/
def stopSeen (stopAfter : Option Nat) (i : Nat) : Bool :=
  match stopAfter with
  | none => false
  | some k => k ≤ i

/-- The `for i, step in enumerate(self.steps)` loop of Routine._execute.
Arguments: total step count `n`, current index, remaining step count.
At each loop head the cancellation flag is checked first; on a set flag the
loop breaks after printing `stopped at step i+1/n`. Otherwise the step's
`execute()` runs: an exception aborts the loop; a boolean return (true or
false alike) is followed by `time.sleep(0.5)` and the next iteration. -/
def execSteps (behave : Nat → StepBehavior) (stopAfter : Option Nat) (n : Nat) :
    Nat → Nat → LoopResult
  | _, 0 => { trace := [], stoppedReport := none, raised := false }
  | i, rem + 1 =>
    if stopSeen stopAfter i then
      { trace := [], stoppedReport := some (i + 1, n), raised := false }
    else
      match behave i with
      | StepBehavior.exc =>
        { trace := [Event.exec i], stoppedReport := none, raised := true }
      | StepBehavior.ok _ =>
        let r := execSteps behave stopAfter n (i + 1) rem
        { trace := Event.exec i :: Event.sleep 500 :: r.trace,
          stoppedReport := r.stoppedReport, raised := r.raised }

/-- Process-wide execution state: the class-level `_execution_lock`, the
`_currently_running` name, and the instance's cancellation event. -/
structure ExecState where
  lockHeld : Bool
  currentlyRunning : Option String
  stopEventSet : Bool
deriving DecidableEq, Repr

/-- Python try/finally: run the body, then the finalizer on whatever state the
body left (the body's exception, if any, is already folded into its result). -/
def tryFinally {α : Type} (body : ExecState → α × ExecState)
    (fin : ExecState → ExecState) (s : ExecState) : α × ExecState :=
  let (a, s1) := body s
  (a, fin s1)

/-- Routine._execute: run the loop (its `except Exception` clause catches a
raising step, recorded in `raised`), and in the `finally` block release the
lock, clear `_currently_running` and clear the stop event. -/
def Routine._execute (behave : Nat → StepBehavior) (stopAfter : Option Nat)
    (r : Routine) (s : ExecState) : LoopResult × ExecState :=
  tryFinally
    (fun s0 => (execSteps behave stopAfter r.steps.length 0 r.steps.length, s0))
    (fun s1 =>
      { s1 with lockHeld := false, currentlyRunning := none, stopEventSet := false })
    s

/-- Result of Routine.start: the returned boolean and, when the body ran, the
loop result. -/
structure StartResult where
  returned : Bool
  outcome : Option LoopResult
deriving DecidableEq, Repr

/-- Routine.start with blocking=True: a single non-blocking try-acquire of the
class-level lock; on failure return False at once with nothing executed and
the state untouched; on success set `_currently_running` and run `_execute`
(which releases the lock in its `finally`), then return True. -/
def Routine.start (behave : Nat → StepBehavior) (stopAfter : Option Nat)
    (r : Routine) (s : ExecState) : StartResult × ExecState :=
  if s.lockHeld then
    ({ returned := false, outcome := none }, s)
  else
    let s1 := { s with lockHeld := true, currentlyRunning := some r.name }
    let er := Routine._execute behave stopAfter r s1
    ({ returned := true, outcome := some er.1 }, er.2)

/-- The fully paced trace: exec 0, sleep 500, exec 1, sleep 500, ... starting
at index `i` for `rem` steps. -/
def pacedTrace : Nat → Nat → List Event
  | _, 0 => []
  | i, rem + 1 => Event.exec i :: Event.sleep 500 :: pacedTrace (i + 1) rem

/-! Interleaving model of two concurrent `Routine.start` calls. Each thread
performs the code of `start`: one atomic try-acquire of the shared lock, then
(on success) the step loop and the release, or (on failure) an immediate
return of False with no step executed. `executed` counts the thread's
completed `execute()` invocations. -/

/-- State of one `start` caller. -/
inductive ThreadState where
  | ready
  | running (executed : Nat) (remaining : Nat)
  | doneOk (executed : Nat)
  | doneFail (executed : Nat)
deriving DecidableEq, Repr

/-- Whether the thread is between its successful acquire and its release. -/
def ThreadState.isRunning : ThreadState → Bool
  | .running _ _ => true
  | _ => false

/-- The shared system: the class-level lock and both callers. -/
structure Sys where
  lock : Bool
  s1 : ThreadState
  s2 : ThreadState
deriving DecidableEq, Repr

/-- Atomic transitions of the two-caller system. Try-acquire succeeds exactly
when the lock is free; a failed try-acquire moves the caller directly to its
False return (no waiting or retrying transition exists). -/
inductive SysStep : Sys → Sys → Prop where
  | acq1 (t : ThreadState) (n : Nat) :
      SysStep ⟨false, .ready, t⟩ ⟨true, .running 0 n, t⟩
  | fail1 (t : ThreadState) :
      SysStep ⟨true, .ready, t⟩ ⟨true, .doneFail 0, t⟩
  | run1 (t : ThreadState) (e m : Nat) :
      SysStep ⟨true, .running e (m + 1), t⟩ ⟨true, .running (e + 1) m, t⟩
  | fin1 (t : ThreadState) (e : Nat) :
      SysStep ⟨true, .running e 0, t⟩ ⟨false, .doneOk e, t⟩
  | acq2 (t : ThreadState) (n : Nat) :
      SysStep ⟨false, t, .ready⟩ ⟨true, t, .running 0 n⟩
  | fail2 (t : ThreadState) :
      SysStep ⟨true, t, .ready⟩ ⟨true, t, .doneFail 0⟩
  | run2 (t : ThreadState) (e m : Nat) :
      SysStep ⟨true, t, .running e (m + 1)⟩ ⟨true, t, .running (e + 1) m⟩
  | fin2 (t : ThreadState) (e : Nat) :
      SysStep ⟨true, t, .running e 0⟩ ⟨false, t, .doneOk e⟩

/-- Initial system: lock free, both callers about to call `start`. -/
def initSys : Sys := ⟨false, .ready, .ready⟩

/-- Reachability from the initial system by any interleaving. -/
def Reach (g : Sys) : Prop := Relation.ReflTransGen SysStep initSys g

/-- Mutual-exclusion invariant: a running caller holds the lock, at most one
caller runs at a time, and a caller that returned False executed no step. -/
def SysInv (g : Sys) : Prop :=
  (g.s1.isRunning = true → g.lock = true) ∧
  (g.s2.isRunning = true → g.lock = true) ∧
  ¬(g.s1.isRunning = true ∧ g.s2.isRunning = true) ∧
  (∀ e, g.s1 = ThreadState.doneFail e → e = 0) ∧
  (∀ e, g.s2 = ThreadState.doneFail e → e = 0)

/-! Scheduler model (RoutineScheduler._execute_routine of scheduler.py) over
the Django models it reads and writes (models.py). -/

/-- The terminal (or only) state of the RoutineLog row of one firing. -/
structure RoutineLog where
  status : String
  error_message : String
  completed_at_set : Bool
deriving DecidableEq, Repr

/-- The Routine Django model fields the scheduler touches. -/
structure DbRoutine where
  name : String
  steps_json : List StepConfig
  enabled : Bool := true
  last_run : Option Nat := none
  run_count : Int := 0
deriving DecidableEq, Repr

/-- Routine.mark_as_run of models.py: set last_run to now and increment
run_count, saved in one update. -/
def DbRoutine.mark_as_run (now : Nat) (m : DbRoutine) : DbRoutine :=
  { m with last_run := some now, run_count := m.run_count + 1 }

/-- Everything one firing produced: whether a RoutineLog row was created
(status `started`), its terminal state, the step invocations of the firing,
whether mark_as_run was called, and the Routine model row afterwards. -/
structure FiringOutcome where
  logOpened : Bool
  log : Option RoutineLog
  execTrace : List Event
  markAsRun : Bool
  model : DbRoutine
deriving DecidableEq, Repr

/-- RoutineScheduler._execute_routine: fetch the definition (`found` models
whether the id exists; a missing or disabled row raises DoesNotExist and the
firing is skipped), create the log with status `started`, build the executor,
validate — on failure close the log as `failed` with the messages joined by
"; " and return — otherwise run `start(blocking=True)`, close the log as
`completed` or `failed` from its boolean, and call mark_as_run. -/
def RoutineScheduler._execute_routine (fs : String → Bool)
    (behave : Nat → StepBehavior) (stopAfter : Option Nat) (now : Nat)
    (found : Bool) (m : DbRoutine) (s : ExecState) : FiringOutcome × ExecState :=
  if found = true ∧ m.enabled = true then
    let executor : Routine := { name := m.name, steps_config := m.steps_json }
    let v := executor.validate fs
    if v.1 then
      let res := Routine.start behave stopAfter executor s
      ({ logOpened := true,
         log := some { status := if res.1.returned then "completed" else "failed",
                       error_message := "", completed_at_set := true },
         execTrace := (res.1.outcome.map LoopResult.trace).getD [],
         markAsRun := true,
         model := m.mark_as_run now }, res.2)
    else
      ({ logOpened := true,
         log := some { status := "failed",
                       error_message := String.intercalate "; " v.2,
                       completed_at_set := true },
         execTrace := [], markAsRun := false, model := m }, s)
  else
    ({ logOpened := false, log := none, execTrace := [], markAsRun := false,
       model := m }, s)

/-! Helper lemmas about the execution loop. -/

/-- With no cancellation and boolean-returning steps, the loop from index `i`
over `rem` steps produces exactly the paced trace, no exception and no stop
report, whatever the booleans are. -/
lemma execSteps_ok_none (results : Nat → Bool) (n : Nat) :
    ∀ (rem i : Nat),
      execSteps (fun j => StepBehavior.ok (results j)) none n i rem =
        { trace := pacedTrace i rem, stoppedReport := none, raised := false } := by
  intro rem
  induction rem with
  | zero => intro i; rfl
  | succ m ih =>
    intro i
    simp [execSteps, stopSeen, pacedTrace, ih (i + 1)]

/-- With boolean-returning steps and the cancellation flag first observed set
at check `k` (with `k` strictly inside the loop range), the loop from index
`i ≤ k` runs exactly the steps `i, ..., k-1` and then breaks with the report
`(k + 1, n)`. -/
lemma execSteps_stop (results : Nat → Bool) (n k : Nat) :
    ∀ (rem i : Nat), i ≤ k → k < i + rem →
      execSteps (fun j => StepBehavior.ok (results j)) (some k) n i rem =
        { trace := pacedTrace i (k - i), stoppedReport := some (k + 1, n),
          raised := false } := by
  intro rem
  induction rem with
  | zero => intro i h1 h2; omega
  | succ m ih =>
    intro i h1 h2
    by_cases hk : k ≤ i
    · have hki : k = i := le_antisymm hk h1
      subst hki
      simp [execSteps, stopSeen, Nat.sub_self, pacedTrace]
    · have hik : i + 1 ≤ k := by omega
      have hrec := ih (i + 1) hik (by omega)
      have hsub : k - i = (k - (i + 1)) + 1 := by omega
      simp [execSteps, stopSeen, hk, hrec, hsub, pacedTrace]

/-- C2: for every execution of a routine body and every outcome — normal
completion, a step returning False, a step raising an exception, or
cancellation (all of which are instances of the universally quantified
`behave` and `stopAfter`) — the finally block of `Routine._execute` releases
the global execution lock and clears the running marker and the stop event,
so the system is never left permanently locked. -/
theorem c2_lock_released_on_every_outcome (behave : Nat → StepBehavior)
    (stopAfter : Option Nat) (r : Routine) (s : ExecState) :
    ((Routine._execute behave stopAfter r s).2).lockHeld = false ∧
    ((Routine._execute behave stopAfter r s).2).currentlyRunning = none ∧
    ((Routine._execute behave stopAfter r s).2).stopEventSet = false :=
  ⟨rfl, rfl, rfl⟩

/-- C3: with no cancellation, a routine body invokes its steps strictly in
list order — the trace is exactly exec 0, sleep 500ms, exec 1, sleep 500ms,
... — a False return from any step (the booleans `results` are arbitrary)
does not stop the loop, and the fixed 0.5-second pacing delay follows each
step. -/
theorem c3_sequential_paced_execution (results : Nat → Bool) (r : Routine)
    (s : ExecState) :
    (Routine._execute (fun j => StepBehavior.ok (results j)) none r s).1 =
      { trace := pacedTrace 0 r.steps.length, stoppedReport := none,
        raised := false } := by
  simpa [Routine._execute, tryFinally] using
    execSteps_ok_none results r.steps.length r.steps.length 0

/-- A concrete two-step routine used to exercise the cancellation path. -/
def c4Routine : Routine :=
  { name := "r",
    steps_config := [{ tag := some "quote" }, { tag := some "quote" }] }

/-- C4 counterexample: in a two-step routine whose stop flag is first seen
set after step 1 completed (so stop was requested after step 1 began and
before step 2 began), the code reports stopping at step 2 of 2 — the first
step not executed — not at step 1 of 2 as the claim states; only step 1 was
executed. -/
theorem c4_counterexample :
    (Routine._execute (fun _ => StepBehavior.ok true) (some 1) c4Routine
        ⟨false, none, false⟩).1.stoppedReport ≠ some (1, 2) ∧
    (Routine._execute (fun _ => StepBehavior.ok true) (some 1) c4Routine
        ⟨false, none, false⟩).1.stoppedReport = some (2, 2) ∧
    (Routine._execute (fun _ => StepBehavior.ok true) (some 1) c4Routine
        ⟨false, none, false⟩).1.trace = [Event.exec 0, Event.sleep 500] :=
  ⟨by decide, rfl, rfl⟩

/-- C4 (amended): the cancellation flag is checked before each step's
execute(); if stop() is requested after step k begins and before step k+1
begins (the flag is first observed set at the check following k completed
steps), then exactly steps 1..k run (trace `pacedTrace 0 k`), no later step's
execute() is ever invoked, and the run reports partial completion as stopped
at step k+1 of n — the 1-based index of the first step not executed, one more
than the last completed step the claim named. -/
theorem c4_amended_cancellation_boundary (results : Nat → Bool) (r : Routine)
    (s : ExecState) (k : Nat) (hk : k < r.steps.length) :
    (Routine._execute (fun j => StepBehavior.ok (results j)) (some k) r s).1 =
      { trace := pacedTrace 0 k, stoppedReport := some (k + 1, r.steps.length),
        raised := false } := by
  simpa [Routine._execute, tryFinally] using
    execSteps_stop results r.steps.length k r.steps.length 0 (Nat.zero_le k)
      (by omega)

/-- Witness for C4 (amended): the two-step routine stopped after one completed
step executes exactly step 1 and reports (2, 2). -/
theorem c4_amended_witness :
    (Routine._execute (fun j => StepBehavior.ok ((fun _ => true) j)) (some 1)
        c4Routine ⟨false, none, false⟩).1 =
      { trace := pacedTrace 0 1, stoppedReport := some (2, c4Routine.steps.length),
        raised := false } :=
  c4_amended_cancellation_boundary (fun _ => true) c4Routine
    ⟨false, none, false⟩ 1 (by decide)

/-- The invariant holds in the initial system. -/
lemma sysInv_init : SysInv initSys := by
  refine ⟨?_, ?_, ?_, ?_, ?_⟩
  · intro h
    simp [initSys, ThreadState.isRunning] at h
  · intro h
    simp [initSys, ThreadState.isRunning] at h
  · rintro ⟨h, -⟩
    simp [initSys, ThreadState.isRunning] at h
  · intro e h
    simp [initSys] at h
  · intro e h
    simp [initSys] at h

/-- The invariant is preserved by every atomic transition. -/
lemma sysInv_step {g g' : Sys} (hg : SysInv g) (hs : SysStep g g') : SysInv g' := by
  obtain ⟨h1, h2, h12, hf1, hf2⟩ := hg
  cases hs with
  | acq1 t n =>
    refine ⟨fun _ => rfl, fun _ => rfl, ?_, ?_, ?_⟩
    · rintro ⟨-, hr⟩
      have hl := h2 hr
      simp at hl
    · intro e h
      simp at h
    · exact hf2
  | fail1 t =>
    refine ⟨fun _ => rfl, fun _ => rfl, ?_, ?_, ?_⟩
    · rintro ⟨hr, -⟩
      simp [ThreadState.isRunning] at hr
    · intro e h
      simp at h
      omega
    · exact hf2
  | run1 t e m =>
    refine ⟨fun _ => rfl, fun _ => rfl, ?_, ?_, ?_⟩
    · rintro ⟨-, hr⟩
      exact h12 ⟨rfl, hr⟩
    · intro e' h
      simp at h
    · exact hf2
  | fin1 t e =>
    refine ⟨?_, ?_, ?_, ?_, ?_⟩
    · intro hr
      simp [ThreadState.isRunning] at hr
    · intro hr
      exact (h12 ⟨rfl, hr⟩).elim
    · rintro ⟨hr, -⟩
      simp [ThreadState.isRunning] at hr
    · intro e' h
      simp at h
    · exact hf2
  | acq2 t n =>
    refine ⟨fun _ => rfl, fun _ => rfl, ?_, ?_, ?_⟩
    · rintro ⟨hr, -⟩
      have hl := h1 hr
      simp at hl
    · exact hf1
    · intro e h
      simp at h
  | fail2 t =>
    refine ⟨fun _ => rfl, fun _ => rfl, ?_, ?_, ?_⟩
    · rintro ⟨-, hr⟩
      simp [ThreadState.isRunning] at hr
    · exact hf1
    · intro e h
      simp at h
      omega
  | run2 t e m =>
    refine ⟨fun _ => rfl, fun _ => rfl, ?_, ?_, ?_⟩
    · rintro ⟨hr, -⟩
      exact h12 ⟨hr, rfl⟩
    · exact hf1
    · intro e' h
      simp at h
  | fin2 t e =>
    refine ⟨?_, ?_, ?_, ?_, ?_⟩
    · intro hr
      exact (h12 ⟨hr, rfl⟩).elim
    · intro hr
      simp [ThreadState.isRunning] at hr
    · rintro ⟨-, hr⟩
      simp [ThreadState.isRunning] at hr
    · exact hf1
    · intro e' h
      simp at h

/-- Every reachable system satisfies the invariant. -/
lemma reach_inv {g : Sys} (h : Reach g) : SysInv g := by
  induction h with
  | refl => exact sysInv_init
  | tail _ hstep ih => exact sysInv_step ih hstep

/-- C1: in every interleaving of a pair of concurrent `Routine.start` calls,
at most one caller holds the global execution lock and is running steps at any
instant (mutual exclusion), and a caller whose non-blocking try-acquire failed
has returned False having invoked no step's execute() — its executed count is
0, and its only transition was the single atomic failed try-acquire, so it
neither blocked nor retried. -/
theorem c1_mutual_exclusion_of_concurrent_starts (g : Sys) (h : Reach g) :
    ¬(g.s1.isRunning = true ∧ g.s2.isRunning = true) ∧
    (∀ e, g.s1 = ThreadState.doneFail e → e = 0) ∧
    (∀ e, g.s2 = ThreadState.doneFail e → e = 0) := by
  obtain ⟨_, _, h12, hf1, hf2⟩ := reach_inv h
  exact ⟨h12, hf1, hf2⟩

/-- Witness for C1: the state in which caller 1 acquired the lock for a
two-step routine and caller 2 then failed its try-acquire is reachable, and
the theorem applies to it. -/
theorem c1_witness :
    ¬((Sys.mk true (ThreadState.running 0 2) (ThreadState.doneFail 0)).s1.isRunning = true ∧
      (Sys.mk true (ThreadState.running 0 2) (ThreadState.doneFail 0)).s2.isRunning = true) ∧
    (∀ e, (Sys.mk true (ThreadState.running 0 2) (ThreadState.doneFail 0)).s1 =
      ThreadState.doneFail e → e = 0) ∧
    (∀ e, (Sys.mk true (ThreadState.running 0 2) (ThreadState.doneFail 0)).s2 =
      ThreadState.doneFail e → e = 0) :=
  c1_mutual_exclusion_of_concurrent_starts
    (Sys.mk true (ThreadState.running 0 2) (ThreadState.doneFail 0))
    (Relation.ReflTransGen.tail
      (Relation.ReflTransGen.single (SysStep.acq1 ThreadState.ready 2))
      (SysStep.fail2 (ThreadState.running 0 2)))

/-- C5: a fired definition whose validation fails is aborted before any step
runs: the scheduler closes the execution record as `failed` with the per-step
messages joined by "; ", no step's execute() is invoked (empty trace), the
lock state is untouched (start() is never called), and the run stats are not
updated — no partial execution occurs. -/
theorem c5_validation_gating (fs : String → Bool) (behave : Nat → StepBehavior)
    (stopAfter : Option Nat) (now : Nat) (m : DbRoutine) (s : ExecState)
    (henabled : m.enabled = true) (errs : List String)
    (hval : Routine.validate fs { name := m.name, steps_config := m.steps_json } =
      (false, errs)) :
    (RoutineScheduler._execute_routine fs behave stopAfter now true m s).1.execTrace = [] ∧
    (RoutineScheduler._execute_routine fs behave stopAfter now true m s).1.log =
      some { status := "failed", error_message := String.intercalate "; " errs,
             completed_at_set := true } ∧
    (RoutineScheduler._execute_routine fs behave stopAfter now true m s).2 = s ∧
    (RoutineScheduler._execute_routine fs behave stopAfter now true m s).1.markAsRun =
      false := by
  simp [RoutineScheduler._execute_routine, henabled, hval]

/-- The database row used to exercise the validation-failure path: a routine
whose single alarm step is missing its required audio_file field. -/
def c5Model : DbRoutine := { name := "r", steps_json := [{ tag := some "alarm" }] }

/-- Witness for C5: the alarm step missing audio_file yields the specific
message, an aborted firing with the record closed as `failed`, and no step
executed. -/
theorem c5_witness :
    (RoutineScheduler._execute_routine (fun _ => false)
        (fun _ => StepBehavior.ok true) none 0 true c5Model
        ⟨false, none, false⟩).1.execTrace = [] ∧
    (RoutineScheduler._execute_routine (fun _ => false)
        (fun _ => StepBehavior.ok true) none 0 true c5Model
        ⟨false, none, false⟩).1.log =
      some { status := "failed",
             error_message :=
               String.intercalate "; " ["Step 1 (Alarm): audio_file is required"],
             completed_at_set := true } ∧
    (RoutineScheduler._execute_routine (fun _ => false)
        (fun _ => StepBehavior.ok true) none 0 true c5Model
        ⟨false, none, false⟩).2 = (⟨false, none, false⟩ : ExecState) ∧
    (RoutineScheduler._execute_routine (fun _ => false)
        (fun _ => StepBehavior.ok true) none 0 true c5Model
        ⟨false, none, false⟩).1.markAsRun = false :=
  c5_validation_gating (fun _ => false) (fun _ => StepBehavior.ok true) none 0
    c5Model ⟨false, none, false⟩ rfl
    ["Step 1 (Alarm): audio_file is required"] rfl

/-- C7 counterexample: a firing of a valid one-step routine that fails to
acquire the lock (it is already held) does have an ExecutionRecord opened for
it — the scheduler creates the log with status `started` before attempting
the lock — and that record is closed with status `failed`, the same terminal
status a validation failure receives, contradicting the claim that no record
is opened for a run that never started. -/
theorem c7_counterexample :
    (RoutineScheduler._execute_routine (fun _ => false)
        (fun _ => StepBehavior.ok true) none 0 true
        { name := "r", steps_json := [{ tag := some "quote" }] }
        ⟨true, some "other", false⟩).1.logOpened = true ∧
    (RoutineScheduler._execute_routine (fun _ => false)
        (fun _ => StepBehavior.ok true) none 0 true
        { name := "r", steps_json := [{ tag := some "quote" }] }
        ⟨true, some "other", false⟩).1.log =
      some { status := "failed", error_message := "", completed_at_set := true } :=
  ⟨rfl, rfl⟩

/-- C7 (amended): a firing that fails to acquire the global execution lock is
abandoned immediately — start() returns False, no step's execute() is invoked
and the lock state is untouched — but an ExecutionRecord has already been
opened for it (status `started`) and is closed with status `failed`. -/
theorem c7_amended_lock_failure_recording (fs : String → Bool)
    (behave : Nat → StepBehavior) (stopAfter : Option Nat) (now : Nat)
    (m : DbRoutine) (s : ExecState) (henabled : m.enabled = true)
    (hvalid : (Routine.validate fs
      { name := m.name, steps_config := m.steps_json }).1 = true)
    (hlock : s.lockHeld = true) :
    (RoutineScheduler._execute_routine fs behave stopAfter now true m s).1.execTrace =
      [] ∧
    (RoutineScheduler._execute_routine fs behave stopAfter now true m s).1.logOpened =
      true ∧
    (RoutineScheduler._execute_routine fs behave stopAfter now true m s).1.log =
      some { status := "failed", error_message := "", completed_at_set := true } ∧
    (RoutineScheduler._execute_routine fs behave stopAfter now true m s).2 = s := by
  simp [RoutineScheduler._execute_routine, henabled, hvalid, Routine.start, hlock]

/-- Witness for C7 (amended): the concrete lock-held firing of a valid
routine. -/
theorem c7_amended_witness :
    (RoutineScheduler._execute_routine (fun _ => false)
        (fun _ => StepBehavior.ok true) none 0 true
        { name := "r", steps_json := [{ tag := some "quote" }] }
        ⟨true, some "other", false⟩).1.execTrace = [] ∧
    (RoutineScheduler._execute_routine (fun _ => false)
        (fun _ => StepBehavior.ok true) none 0 true
        { name := "r", steps_json := [{ tag := some "quote" }] }
        ⟨true, some "other", false⟩).1.logOpened = true ∧
    (RoutineScheduler._execute_routine (fun _ => false)
        (fun _ => StepBehavior.ok true) none 0 true
        { name := "r", steps_json := [{ tag := some "quote" }] }
        ⟨true, some "other", false⟩).1.log =
      some { status := "failed", error_message := "", completed_at_set := true } ∧
    (RoutineScheduler._execute_routine (fun _ => false)
        (fun _ => StepBehavior.ok true) none 0 true
        { name := "r", steps_json := [{ tag := some "quote" }] }
        ⟨true, some "other", false⟩).2 = (⟨true, some "other", false⟩ : ExecState) :=
  c7_amended_lock_failure_recording (fun _ => false) (fun _ => StepBehavior.ok true)
    none 0 { name := "r", steps_json := [{ tag := some "quote" }] }
    ⟨true, some "other", false⟩ rfl rfl rfl

/-- C8 counterexample: a two-step firing truncated by cancellation after step
1 (only step 1's execute() appears in the trace) has its record closed with
status `completed`, not `stopped`: the scheduler maps start()'s boolean to
completed/failed only and a cancelled run still returns True. -/
theorem c8_counterexample :
    (RoutineScheduler._execute_routine (fun _ => false)
        (fun _ => StepBehavior.ok true) (some 1) 0 true
        { name := "r", steps_json := [{ tag := some "quote" }, { tag := some "quote" }] }
        ⟨false, none, false⟩).1.execTrace = [Event.exec 0, Event.sleep 500] ∧
    (RoutineScheduler._execute_routine (fun _ => false)
        (fun _ => StepBehavior.ok true) (some 1) 0 true
        { name := "r", steps_json := [{ tag := some "quote" }, { tag := some "quote" }] }
        ⟨false, none, false⟩).1.log =
      some { status := "completed", error_message := "", completed_at_set := true } ∧
    ("completed" : String) ≠ "stopped" :=
  ⟨rfl, rfl, by decide⟩

/-- C8 (amended): for every firing of a valid enabled routine that acquires
the lock, whatever the cancellation point `k` (and whatever the steps do),
the record's terminal status is `completed` — the code never writes the
`stopped` status its own status enumeration declares. -/
theorem c8_amended_cancelled_run_recorded_completed (fs : String → Bool)
    (behave : Nat → StepBehavior) (k : Nat) (now : Nat) (m : DbRoutine)
    (s : ExecState) (henabled : m.enabled = true)
    (hvalid : (Routine.validate fs
      { name := m.name, steps_config := m.steps_json }).1 = true)
    (hfree : s.lockHeld = false) :
    (RoutineScheduler._execute_routine fs behave (some k) now true m s).1.log =
      some { status := "completed", error_message := "", completed_at_set := true } := by
  simp [RoutineScheduler._execute_routine, henabled, hvalid, Routine.start, hfree]

/-- Witness for C8 (amended): the concrete truncated two-step firing. -/
theorem c8_amended_witness :
    (RoutineScheduler._execute_routine (fun _ => false)
        (fun _ => StepBehavior.ok true) (some 1) 0 true
        { name := "r", steps_json := [{ tag := some "quote" }, { tag := some "quote" }] }
        ⟨false, none, false⟩).1.log =
      some { status := "completed", error_message := "", completed_at_set := true } :=
  c8_amended_cancelled_run_recorded_completed (fun _ => false)
    (fun _ => StepBehavior.ok true) 1 0
    { name := "r", steps_json := [{ tag := some "quote" }, { tag := some "quote" }] }
    ⟨false, none, false⟩ rfl rfl rfl

/-- C9 counterexample: a firing of a valid routine that fails to acquire the
lock — so it never ran and its record is closed as `failed` — still has
mark_as_run called: run_count is incremented and last_run set, contradicting
the claim that the stats are updated only on successful completion. -/
theorem c9_counterexample :
    (RoutineScheduler._execute_routine (fun _ => false)
        (fun _ => StepBehavior.ok true) none 5 true
        { name := "r", steps_json := [{ tag := some "quote" }] }
        ⟨true, some "other", false⟩).1.markAsRun = true ∧
    (RoutineScheduler._execute_routine (fun _ => false)
        (fun _ => StepBehavior.ok true) none 5 true
        { name := "r", steps_json := [{ tag := some "quote" }] }
        ⟨true, some "other", false⟩).1.model.run_count = 1 ∧
    (RoutineScheduler._execute_routine (fun _ => false)
        (fun _ => StepBehavior.ok true) none 5 true
        { name := "r", steps_json := [{ tag := some "quote" }] }
        ⟨true, some "other", false⟩).1.model.last_run = some 5 ∧
    (RoutineScheduler._execute_routine (fun _ => false)
        (fun _ => StepBehavior.ok true) none 5 true
        { name := "r", steps_json := [{ tag := some "quote" }] }
        ⟨true, some "other", false⟩).1.log =
      some { status := "failed", error_message := "", completed_at_set := true } :=
  ⟨rfl, rfl, rfl, rfl⟩

/-- C9 (amended): mark_as_run is called exactly when the routine was found,
enabled and passed validation — i.e. whenever start() was invoked, regardless
of whether the lock was acquired or the firing succeeded — and when it is
called, last_run and run_count are updated together in the same operation
(and left untouched otherwise). -/
theorem c9_amended_run_stats_update (fs : String → Bool)
    (behave : Nat → StepBehavior) (stopAfter : Option Nat) (now : Nat)
    (found : Bool) (m : DbRoutine) (s : ExecState) :
    ((RoutineScheduler._execute_routine fs behave stopAfter now found m s).1.markAsRun =
        true ↔
      (found = true ∧ m.enabled = true ∧
        (Routine.validate fs { name := m.name, steps_config := m.steps_json }).1 =
          true)) ∧
    (RoutineScheduler._execute_routine fs behave stopAfter now found m s).1.model =
      (if (RoutineScheduler._execute_routine fs behave stopAfter now found m s).1.markAsRun
        then m.mark_as_run now else m) := by
  by_cases hfe : found = true ∧ m.enabled = true
  · by_cases hv : (Routine.validate fs
      { name := m.name, steps_config := m.steps_json }).1 = true
    · simp [RoutineScheduler._execute_routine, hfe.1, hfe.2, hv]
    · have hv' : (Routine.validate fs
        { name := m.name, steps_config := m.steps_json }).1 = false := by
        simpa using hv
      simp [RoutineScheduler._execute_routine, hfe.1, hfe.2, hv']
  · simp [RoutineScheduler._execute_routine, hfe]
    intro hfound
    exact fun henabled => absurd ⟨hfound, henabled⟩ hfe

/-- The per-step error list is empty exactly when every built step passes its
validate_config, at any starting index. -/
lemma stepErrors_eq_nil (fs : String → Bool) :
    ∀ (l : List BuiltStep) (i : Nat),
      stepErrors fs i l = [] ↔ ∀ s ∈ l, (validate_config fs s).1 = true := by
  intro l
  induction l with
  | nil => intro i; simp [stepErrors]
  | cons a rest ih =>
    intro i
    by_cases ha : (validate_config fs a).1 = true
    · simp [stepErrors, ha, ih (i + 1)]
    · have ha' : (validate_config fs a).1 = false := by simpa using ha
      simp [stepErrors, ha']

/-- C6: Routine.validate returns (true, []) exactly when the name is
non-empty, the raw step-configuration list is non-empty and every built
step's validate_config passes; the validity flag is true exactly when the
error list is empty (so otherwise the result is (false, errors)); and the
error list is, in order, the name message, the empty-routine message and the
per-step messages. -/
theorem c6_validate_characterization (fs : String → Bool) (r : Routine) :
    (Routine.validate fs r = (true, []) ↔
      (r.name ≠ "" ∧ r.steps_config ≠ [] ∧
        ∀ s ∈ r.steps, (validate_config fs s).1 = true)) ∧
    ((Routine.validate fs r).1 = true ↔ (Routine.validate fs r).2 = []) ∧
    (Routine.validate fs r).2 =
      nameErrors r ++ emptyErrors r ++ stepErrors fs 0 r.steps := by
  refine ⟨?_, ?_, rfl⟩
  · rw [Routine.validate, Prod.mk.injEq]
    simp only [beq_iff_eq, List.length_eq_zero]
    constructor
    · rintro ⟨-, h⟩
      rw [List.append_eq_nil, List.append_eq_nil] at h
      obtain ⟨⟨hn, hc⟩, hs⟩ := h
      refine ⟨?_, ?_, (stepErrors_eq_nil fs r.steps 0).mp hs⟩
      · intro hname
        simp [nameErrors, hname] at hn
      · intro hcfg
        simp [emptyErrors, hcfg] at hc
    · rintro ⟨hn, hc, hs⟩
      have h : nameErrors r ++ emptyErrors r ++ stepErrors fs 0 r.steps = [] := by
        rw [List.append_eq_nil, List.append_eq_nil]
        exact ⟨⟨by simp [nameErrors, hn], by simp [emptyErrors, hc]⟩,
          (stepErrors_eq_nil fs r.steps 0).mpr hs⟩
      simp [h]
  · rw [Routine.validate]
    simp [List.length_eq_zero]

/-- A filterMap whose function hits on every element keeps the length. -/
lemma filterMap_all_some_length {α β : Type} (f : α → Option β) :
    ∀ l : List α, (∀ a ∈ l, (f a).isSome = true) →
      (l.filterMap f).length = l.length := by
  intro l
  induction l with
  | nil => intro h; rfl
  | cons a t ih =>
    intro h
    obtain ⟨b, hb⟩ := Option.isSome_iff_exists.mp (h a (List.mem_cons_self a t))
    simp [List.filterMap_cons, hb, ih (fun x hx => h x (List.mem_cons_of_mem a hx))]

/-- C10: a routine whose steps_config is non-empty but holds only
unrecognized type tags builds no steps (one warning per entry), yet
validate() still returns (true, []) — the zero-steps check looks at the raw
configuration list, not the built steps — and start() on a free lock
acquires it, executes zero steps (empty trace), releases, and returns True
as a normal completion. -/
theorem c10_unknown_tags_vacuous_success (fs : String → Bool)
    (behave : Nat → StepBehavior) (stopAfter : Option Nat) (r : Routine)
    (s : ExecState) (hname : r.name ≠ "") (hne : r.steps_config ≠ [])
    (hunknown : ∀ c ∈ r.steps_config, create_routine_step c.tag c.config = none)
    (hfree : s.lockHeld = false) :
    r.steps = [] ∧
    (buildWarnings r).length = r.steps_config.length ∧
    Routine.validate fs r = (true, []) ∧
    Routine.start behave stopAfter r s =
      ({ returned := true,
         outcome := some { trace := [], stoppedReport := none, raised := false } },
       { lockHeld := false, currentlyRunning := none, stopEventSet := false }) := by
  have hsteps : r.steps = [] := by
    rw [Routine.steps, List.filterMap_eq_nil_iff]
    exact hunknown
  refine ⟨hsteps, ?_, ?_, ?_⟩
  · refine filterMap_all_some_length _ r.steps_config (fun c hc => ?_)
    simp [hunknown c hc]
  · simp [Routine.validate, nameErrors, emptyErrors, hname, hne, hsteps, stepErrors]
  · simp [Routine.start, hfree, Routine._execute, tryFinally, hsteps, execSteps]

/-- Witness for C10: the routine whose single entry has the unrecognized tag
"bogus". -/
theorem c10_witness :
    ({ name := "r", steps_config := [{ tag := some "bogus" }] } : Routine).steps = [] ∧
    (buildWarnings { name := "r", steps_config := [{ tag := some "bogus" }] }).length =
      ({ name := "r", steps_config := [{ tag := some "bogus" }] } : Routine).steps_config.length ∧
    Routine.validate (fun _ => false)
      { name := "r", steps_config := [{ tag := some "bogus" }] } = (true, []) ∧
    Routine.start (fun _ => StepBehavior.ok true) none
      { name := "r", steps_config := [{ tag := some "bogus" }] } ⟨false, none, false⟩ =
      ({ returned := true,
         outcome := some { trace := [], stoppedReport := none, raised := false } },
       { lockHeld := false, currentlyRunning := none, stopEventSet := false }) :=
  c10_unknown_tags_vacuous_success (fun _ => false) (fun _ => StepBehavior.ok true)
    none { name := "r", steps_config := [{ tag := some "bogus" }] }
    ⟨false, none, false⟩ (by decide) (by decide) (by decide) rfl

end AlarmApp
